import Mathlib

/-
Verification of the LaTeX compilation service (src/main.py).

The development shallowly embeds the orchestration core of the service:
engine selection (choose_compiler), entry-file resolution
(find_main_tex_file over the project tree), the bibliography stage
(run_bibtex_if_needed), the multi-pass pipeline (compile_project) and the
project endpoint's result shaping (compile_latex_project).  External
process invocations are modelled by an environment that records, for each
subprocess the code would spawn, whether it completed (with exit code and
captured output), timed out, or its binary was missing; file-system
observations made by the code (existence of .bib files, of the .aux file,
of the output PDF, readability of the artifact) are likewise environment
fields.  The function attribute `compile_project.last_logs` that the
Python code assigns on success is modelled as explicit global state
threaded through `compile_project`.
-/

set_option maxRecDepth 16384

namespace LatexCompiler

/-- Substring test: rendering of Python's `pat in s` on strings
(true when `p` occurs as a contiguous sublist, the empty pattern always
occurs). -/
def hasSubList (p : List Char) : List Char → Bool
  | [] => p.isEmpty
  | a :: as => p.isPrefixOf (a :: as) || hasSubList p as

/-- String containment, Python's `pat in s`. -/
def strContains (s pat : String) : Bool := hasSubList pat.toList s.toList

/-- ASCII lowering of one character (the case folds performed by the code
are on ASCII names such as `tex` and `main.tex`). -/
def lowerChar (c : Char) : Char :=
  if 65 ≤ c.toNat && c.toNat ≤ 90 then Char.ofNat (c.toNat + 32) else c

/-- Python's `s.lower()` as used by the code (ASCII case fold). -/
def strLower (s : String) : String := ⟨s.toList.map lowerChar⟩

/-- ASCII raising of one character. -/
def upperChar (c : Char) : Char :=
  if 97 ≤ c.toNat && c.toNat ≤ 122 then Char.ofNat (c.toNat - 32) else c

/-- Python's `s.upper()` as used by the code (ASCII case raise). -/
def strUpper (s : String) : String := ⟨s.toList.map upperChar⟩

/-- Python's slice `s[:n]`: the first `n` characters. -/
def strTake (s : String) (n : Nat) : String := ⟨s.toList.take n⟩

/-- Packages whose presence selects the unicode engine (src/main.py line 215). -/
def xelatex_packages : List String := ["fontspec", "xltxtra", "xunicode", "polyglossia"]

/-- Packages whose presence selects the programmable engine (src/main.py line 220). -/
def lualatex_packages : List String := ["luacode", "luatextra", "luamplib"]

/-- The exact probe string the code searches for a package `pkg`:
`\usepackage{pkg}` with no option list (src/main.py lines 216 and 221). -/
def usepackageOf (pkg : String) : String := "\\usepackage\x7b" ++ pkg ++ "\x7d"

/-- Engine selection, embedding `choose_compiler` (src/main.py lines 204-233). -/
def choose_compiler (tex_source : String) : String :=
  if xelatex_packages.any (fun pkg => strContains tex_source (usepackageOf pkg)) then
    "xelatex"
  else if lualatex_packages.any (fun pkg => strContains tex_source (usepackageOf pkg)) then
    "lualatex"
  else if tex_source.toList.any (fun c => 127 < c.toNat) then
    "xelatex"
  else if strContains tex_source "\\setmainfont" || strContains tex_source "\\setsansfont"
      || strContains tex_source "\\setmonofont" then
    "xelatex"
  else
    "pdflatex"

/-- A file of the project tree.  Only the fields the orchestration core
reads are kept (`id`, `name`, `format`, `content`); the remaining request
metadata (folder id, owner, timestamps, ...) is never consulted by the
modelled functions. -/
structure FileInfo where
  id : String
  name : String
  format : String
  content : String
deriving DecidableEq

mutual

/-- The project tree (`PaperFolderData`): folder name, root flag, files,
subfolders.  Metadata fields unused by the core are omitted; the
subfolder list is represented by the mutually defined `PaperFolderList`
(an ordered list of subtrees). -/
inductive PaperFolderData where
  | mk (name : String) (is_root : Bool) (files : List FileInfo)
      (subfolders : PaperFolderList)

/-- Ordered list of subfolders of a `PaperFolderData` node. -/
inductive PaperFolderList where
  | nil
  | cons (head : PaperFolderData) (tail : PaperFolderList)

end

mutual

/-- Recursive collection of the compilable candidates, embedding
`collect_tex_files` inside `find_main_tex_file` (src/main.py lines
165-174): files of the current folder first (those whose declared format
is `tex` and whose id appears in the materialized path mapping `fp`),
then each subfolder in order. -/
def collectTexFiles (fp : List (String × String)) : PaperFolderData → List (FileInfo × String)
  | .mk _ _ files subfolders =>
    files.filterMap (fun fi =>
      if strLower fi.format == "tex" then (fp.lookup fi.id).map (fun p => (fi, p)) else none)
    ++ collectTexFilesList fp subfolders

/-- Collection over a subfolder list, in order. -/
def collectTexFilesList (fp : List (String × String)) : PaperFolderList → List (FileInfo × String)
  | .nil => []
  | .cons f fs => collectTexFiles fp f ++ collectTexFilesList fp fs

end

/-- Conventional entry-file names (src/main.py line 187). -/
def common_names : List String := ["main.tex", "document.tex", "paper.tex", "thesis.tex"]

/-- Rules 2-4 of entry resolution: conventional names (case-insensitive,
all candidates scanned for each name in list order), then document-class
marker in the first 1000 characters, then the first candidate
(src/main.py lines 186-202). -/
def findByConvention (tex_files : List (FileInfo × String)) : Option String :=
  match common_names.findSome?
      (fun cn => tex_files.find? (fun q => strLower q.1.name == strLower cn)) with
  | some q => some q.2
  | none =>
    match tex_files.find? (fun q => strContains (strTake q.1.content 1000) "\\documentclass") with
    | some q => some q.2
    | none => tex_files.head?.map (fun q => q.2)

/-- Entry resolution, embedding `find_main_tex_file` (src/main.py lines
150-202).  `fp` is the id-to-path mapping produced by materialization. -/
def find_main_tex_file (folder : PaperFolderData) (fp : List (String × String))
    (specified_main : Option String) : Option String :=
  let tex_files := collectTexFiles fp folder
  if tex_files.isEmpty then none
  else
    match specified_main with
    | some m =>
      match tex_files.find? (fun q => q.1.name == m) with
      | some q => some q.2
      | none => findByConvention tex_files
    | none => findByConvention tex_files

/-- Outcome of one subprocess invocation: normal completion with exit code
and captured output, a `subprocess.TimeoutExpired` (carrying the
exception's rendering), or a `FileNotFoundError` for a missing binary. -/
inductive ProcResult where
  | completed (returncode : Int) (stdout stderr : String)
  | timeout (msg : String)
  | notFound (msg : String)
deriving DecidableEq

/-- Environment observed by the bibliography stage: whether `.bib` files
exist under the working directory, whether the `.aux` file exists, the
result of reading it, and the outcome each bibliography processor would
produce if invoked. -/
structure BibEnv where
  bib_files_exist : Bool
  aux_exists : Bool
  aux_read : Except String String
  biber : ProcResult
  bibtex : ProcResult

/-- Transcript block the code emits for one bibliography-processor run
(src/main.py lines 306-309). -/
def bibBlock (procname : String) (rc : Int) (out err : String) : String :=
  "=== " ++ (strUpper procname ++ (" ===\nReturn code: " ++ (toString rc ++
    ("\nSTDOUT:\n" ++ (out ++ ("\nSTDERR:\n" ++ (err ++ "\n\n")))))))

/-- Loop over the ordered bibliography processors (src/main.py lines
294-316): a processor that completes appends its block and wins if its
exit code is zero; a timeout or missing binary appends a failure line and
the next processor is tried. -/
def bibLoop (logs : String) : List (String × ProcResult) → Bool × String
  | [] => (false, logs)
  | (procname, r) :: rest =>
    match r with
    | .completed rc out err =>
      let logs := logs ++ bibBlock procname rc out err
      if rc == 0 then (true, logs) else bibLoop logs rest
    | .timeout msg => bibLoop (logs ++ ("Failed to run " ++ (procname ++ (": " ++ (msg ++ "\n"))))) rest
    | .notFound msg => bibLoop (logs ++ ("Failed to run " ++ (procname ++ (": " ++ (msg ++ "\n"))))) rest

/-- Bibliography stage, embedding `run_bibtex_if_needed` (src/main.py
lines 261-319).  Returns (did a processor exit successfully, transcript). -/
def run_bibtex_if_needed (env : BibEnv) : Bool × String :=
  if env.bib_files_exist = false then (false, "No .bib files found")
  else if env.aux_exists = false then (false, "No .aux file found")
  else
    match env.aux_read with
    | .error e => (false, "Error reading .aux file: " ++ e)
    | .ok aux_content =>
      if !strContains aux_content "\\bibdata" && !strContains aux_content "\\citation" then
        (false, "No bibliography citations found in .aux file")
      else
        bibLoop "" [("biber", env.biber), ("bibtex", env.bibtex)]

/-- Environment of one `compile_project` execution: outcome of each
compilation pass the code may spawn, the bibliography-stage environment,
and whether the expected PDF exists after the passes. -/
structure CompileEnv where
  pass1 : ProcResult
  bib : BibEnv
  pass2 : ProcResult
  pass3 : ProcResult
  pdf_exists : Bool

/-- Process-wide mutable state: the `compile_project.last_logs` function
attribute the code assigns on success (src/main.py line 625); `none`
models the attribute not being set yet. -/
structure GlobalState where
  last_logs : Option String
deriving DecidableEq

/-- Transcript block for one compilation pass (src/main.py lines
548-551, 580-583, 607-610). -/
def passBlock (title compiler : String) (rc : Int) (out err : String) : String :=
  "=== " ++ (title ++ (" Compilation Pass (" ++ (compiler ++ (") ===\nReturn code: " ++
    (toString rc ++ ("\nSTDOUT:\n" ++ (out ++ ("\nSTDERR:\n" ++ (err ++ "\n\n")))))))))

/-- Message appended by the `subprocess.TimeoutExpired` handler
(src/main.py line 629). -/
def timeoutMsg : String := "=== TIMEOUT ERROR ===\nCompilation timed out after 120 seconds\n"

/-- Message appended by the generic exception handler (src/main.py line 635). -/
def unexpectedMsg (e : String) : String := "=== UNEXPECTED ERROR ===\n" ++ (e ++ "\n")

/-- Message appended when the PDF is missing after the passes
(src/main.py line 619). -/
def pdfMissingMsg : String :=
  "=== ERROR ===\nPDF file was not generated despite successful compilation\n"

/-- Success marker (src/main.py line 624). -/
def successMsg : String := "=== COMPILATION SUCCESSFUL ===\n"

/-- Transcript contribution of the bibliography stage as aggregated by
`compile_project` (src/main.py lines 560-564): the raw stage transcript
when a processor succeeded, otherwise wrapped under a
`=== Bibliography Processing ===` header. -/
def bibSection (bib : Bool × String) : String :=
  if bib.1 then bib.2 else "=== Bibliography Processing ===\n" ++ (bib.2 ++ "\n")

/-- Final artifact check of `compile_project` (src/main.py lines
616-626): failure with the first-pass transcript prepended when the PDF
is missing, otherwise success, with the transcript also stashed on the
`last_logs` attribute. -/
def finalizePdf (first_pass_logs all_logs : String) (pdf_exists : Bool)
    (g : GlobalState) : (Bool × String) × GlobalState :=
  if pdf_exists = false then
    ((false, first_pass_logs ++ (all_logs ++ pdfMissingMsg)), g)
  else
    ((true, all_logs ++ successMsg), ⟨some (all_logs ++ successMsg)⟩)

/-- Pipeline controller, embedding `compile_project` (src/main.py lines
520-638).  A `timeout` of any pass lands in the `TimeoutExpired` handler,
a `notFound` in the generic handler; both prepend `first_pass_logs`
(which is still `""` when pass 1 itself did not complete).  Returns
((success, transcript), new global state). -/
def compile_project (compiler : String) (env : CompileEnv) (g : GlobalState) :
    (Bool × String) × GlobalState :=
  match env.pass1 with
  | .timeout _ => ((false, "" ++ ("" ++ timeoutMsg)), g)
  | .notFound e => ((false, "" ++ ("" ++ unexpectedMsg e)), g)
  | .completed rc1 o1 e1 =>
    let first_pass_logs := passBlock "First" compiler rc1 o1 e1
    if rc1 != 0 then ((false, first_pass_logs), g)
    else
      let bib := run_bibtex_if_needed env.bib
      let all1 := first_pass_logs ++ bibSection bib
      match env.pass2 with
      | .timeout _ => ((false, first_pass_logs ++ (all1 ++ timeoutMsg)), g)
      | .notFound e => ((false, first_pass_logs ++ (all1 ++ unexpectedMsg e)), g)
      | .completed rc2 o2 e2 =>
        let all2 := all1 ++ passBlock "Second" compiler rc2 o2 e2
        if rc2 != 0 then ((false, first_pass_logs ++ all2), g)
        else if bib.1 then
          match env.pass3 with
          | .timeout _ => ((false, first_pass_logs ++ (all2 ++ timeoutMsg)), g)
          | .notFound e => ((false, first_pass_logs ++ (all2 ++ unexpectedMsg e)), g)
          | .completed rc3 o3 e3 =>
            finalizePdf first_pass_logs (all2 ++ passBlock "Third" compiler rc3 o3 e3)
              env.pdf_exists g
        else
          finalizePdf first_pass_logs all2 env.pdf_exists g

/-- Forbidden constructs rejected by `validate_tex_file` (src/main.py
lines 246-252). -/
def dangerous_commands : List String :=
  ["\\write18", "\\immediate\\write18", "\\input\x7b|", "\\openin", "\\openout"]

/-- Validation predicate: true when the source contains a forbidden
construct, in which case the code raises an HTTP 400 (src/main.py lines
235-259). -/
def validate_tex_file (tex_source : String) : Bool :=
  dangerous_commands.any (fun cmd => strContains tex_source cmd)

/-- JSON body of a `/compile-project` response; only the fields relevant
to the verified claims are kept (`status`, `message`, `logs`). -/
structure ApiResponse where
  status : String
  message : String
  logs : String
deriving DecidableEq

/-- Outcome of the `/compile-project` handler: a raised `HTTPException`
or a JSON response. -/
inductive ProjectOutcome where
  | httpError (status_code : Nat) (detail : String)
  | response (r : ApiResponse)
deriving DecidableEq

/-- Content of the resolved entry file as read back from disk: the
materialized candidate carrying that path. -/
def contentAt (folder : PaperFolderData) (fp : List (String × String)) (path : String) : String :=
  match (collectTexFiles fp folder).find? (fun q => q.2 == path) with
  | some q => q.1.content
  | none => ""

/-- Project endpoint, embedding `compile_latex_project` (src/main.py
lines 424-518).  `fp` is the materialized path mapping, `env` the
pipeline environment and `pdf_read` the result of reading the produced
artifact after a successful compilation; an exception there lands in the
generic handler, which responds with empty `logs` (src/main.py lines
512-518). -/
def compile_latex_project (folder : PaperFolderData) (main_file : Option String)
    (fp : List (String × String)) (env : CompileEnv) (g : GlobalState)
    (pdf_read : Except String String) : ProjectOutcome × GlobalState :=
  if fp.isEmpty then (.httpError 400 "No valid files found in project", g)
  else
    match find_main_tex_file folder fp main_file with
    | none => (.httpError 400 "No main .tex file found in project", g)
    | some path =>
      let tex_content := contentAt folder fp path
      if validate_tex_file tex_content then
        (.httpError 400 "Potentially dangerous command detected", g)
      else
        let compiler := choose_compiler tex_content
        let r := compile_project compiler env g
        if r.1.1 = false then
          (.response ⟨"error", "LaTeX project compilation failed", r.1.2⟩, r.2)
        else if env.pdf_exists = false then
          (.response ⟨"error", "PDF was not generated", r.1.2⟩, r.2)
        else
          match pdf_read with
          | .error _ => (.response ⟨"error", "Internal server error", ""⟩, r.2)
          | .ok _ => (.response ⟨"success", "LaTeX compilation successful", r.1.2⟩, r.2)

/-- Source text refuting C4's universal clause: it references both a
unicode-only package (`fontspec`) and a programmable-only package
(`luacode`) and contains a non-ASCII character. -/
def c4input : String := "\\usepackage\x7bfontspec\x7d\\usepackage\x7bluacode\x7dé"

/-- Source text for the amended C4's witness: a programmable-only package
reference together with non-ASCII content, and no unicode-only package. -/
def c4winput : String := "\\usepackage\x7bluacode\x7d caf\u00e9"

/-- Source text loading a unicode-only package with a bracketed option
list: the exact probe `\usepackage{fontspec}` does not occur in it. -/
def c10input : String :=
  "\\documentclass\x7barticle\x7d\n\\usepackage[no-math]\x7bfontspec\x7d\nHello"

/-- Candidate file used by the resolution witnesses. -/
def wFileA : FileInfo := ⟨"idA", "alpha.tex", "tex", "no marker here"⟩

/-- Candidate with a conventional name in a subfolder. -/
def wFileMain : FileInfo := ⟨"idM", "Main.TEX", "tex", "x"⟩

/-- Concrete project tree: `alpha.tex` at the root, `Main.TEX` in a
subfolder. -/
def wTree : PaperFolderData :=
  .mk "proj" true [wFileA] (.cons (.mk "sub" false [wFileMain] .nil) .nil)

/-- Materialized path mapping for `wTree`. -/
def wFp : List (String × String) := [("idA", "alpha.tex"), ("idM", "sub/Main.TEX")]

/-- Bibliography environment with no `.bib` files: the stage is skipped. -/
def bibSkipped : BibEnv := ⟨false, false, .error "unused", .completed 1 "" "", .completed 1 "" ""⟩

/-- Bibliography environment whose modern processor (`biber`) exits 0. -/
def wBibOk : BibEnv := ⟨true, true, .ok "\\citation\x7bx\x7d", .completed 0 "bo" "be", .completed 1 "bt" "bt"⟩

/-- Pipeline environment refuting C1: pass 1 exits zero, pass 2 exits 1. -/
def c1env : CompileEnv := ⟨.completed 0 "A" "B", bibSkipped, .completed 1 "C" "D", .completed 0 "" "", true⟩

/-- Pipeline environment for the amended C1's witness: pass-2 timeout. -/
def c1wenv : CompileEnv := ⟨.completed 0 "A" "B", bibSkipped, .timeout "texbin", .completed 0 "" "", true⟩

/-- Pipeline environment refuting C2: passes 1 and 2 succeed, the
bibliography stage ran a processor successfully, pass 3 times out, and
the expected artifact exists. -/
def c2env : CompileEnv := ⟨.completed 0 "o1" "e1", wBibOk, .completed 0 "o2" "e2", .timeout "cmd", true⟩

/-- Fully successful pipeline environment; pass 3 exits 9 (warning only). -/
def wEnvOk : CompileEnv := ⟨.completed 0 "o1" "e1", wBibOk, .completed 0 "o2" "e2", .completed 9 "o3" "e3", true⟩

/-- Successful pipeline environment with the bibliography stage skipped. -/
def wEnvNoBib : CompileEnv :=
  ⟨.completed 0 "o1" "e1", bibSkipped, .completed 0 "o2" "e2", .completed 0 "x" "y", true⟩

/-- Failing pipeline environment with the bibliography stage skipped:
pass 2 exits 1. -/
def wEnvP2Fail : CompileEnv :=
  ⟨.completed 0 "o1" "e1", bibSkipped, .completed 1 "o2" "e2", .completed 0 "x" "y", true⟩

/-! Helper lemmas. -/

theorem string_toList_append (s t : String) : (s ++ t).toList = s.toList ++ t.toList := rfl

theorem string_eq_of_toList : ∀ {a b : String}, a.toList = b.toList → a = b
  | ⟨_⟩, ⟨_⟩, h => congrArg String.mk h

theorem string_ne_of_take_ne {a b : String} (n : Nat)
    (h : a.toList.take n ≠ b.toList.take n) : a ≠ b := fun he => h (by rw [he])

theorem string_append_ne_empty_left {a : String} (b : String) (h : a ≠ "") :
    a ++ b ≠ "" := by
  intro he
  have h1 : a.toList ++ b.toList = [] := by
    have h2 := congrArg String.toList he
    simpa [string_toList_append] using h2
  have h3 : a.toList = [] := (List.append_eq_nil.mp h1).1
  exact h (string_eq_of_toList h3)

/-! Claim theorems. -/

/-- C4, counterexample: a source text containing a programmable-engine-only
package reference and a non-ASCII character for which `choose_compiler`
selects `xelatex`, not `lualatex` — the unicode-package rule is evaluated
first and also matches this text, so the claim's universal statement is
false as written. -/
theorem c4_cex :
    ("luacode" ∈ lualatex_packages) ∧
    strContains c4input (usepackageOf "luacode") = true ∧
    c4input.toList.any (fun c => 127 < c.toNat) = true ∧
    choose_compiler c4input ≠ "lualatex" ∧
    choose_compiler c4input = "xelatex" :=
  ⟨by decide, by decide, by decide, by decide, by decide⟩

/-- C4 (amended): `choose_compiler` is a pure function of the entry text
evaluated in the fixed order unicode-only packages, programmable-only
packages, non-ASCII heuristic, font-selection commands, standard engine;
a text containing a programmable-only package reference, *no unicode-only
package reference*, and a non-ASCII character selects the programmable
engine. -/
theorem c4_amended_engine_rule_order (t : String) :
    (xelatex_packages.any (fun pkg => strContains t (usepackageOf pkg)) = true →
      choose_compiler t = "xelatex") ∧
    (xelatex_packages.any (fun pkg => strContains t (usepackageOf pkg)) = false →
      lualatex_packages.any (fun pkg => strContains t (usepackageOf pkg)) = true →
      choose_compiler t = "lualatex") ∧
    (xelatex_packages.any (fun pkg => strContains t (usepackageOf pkg)) = false →
      lualatex_packages.any (fun pkg => strContains t (usepackageOf pkg)) = false →
      t.toList.any (fun c => 127 < c.toNat) = true →
      choose_compiler t = "xelatex") ∧
    (xelatex_packages.any (fun pkg => strContains t (usepackageOf pkg)) = false →
      lualatex_packages.any (fun pkg => strContains t (usepackageOf pkg)) = false →
      t.toList.any (fun c => 127 < c.toNat) = false →
      (strContains t "\\setmainfont" || strContains t "\\setsansfont"
        || strContains t "\\setmonofont") = true →
      choose_compiler t = "xelatex") ∧
    (xelatex_packages.any (fun pkg => strContains t (usepackageOf pkg)) = false →
      lualatex_packages.any (fun pkg => strContains t (usepackageOf pkg)) = false →
      t.toList.any (fun c => 127 < c.toNat) = false →
      (strContains t "\\setmainfont" || strContains t "\\setsansfont"
        || strContains t "\\setmonofont") = false →
      choose_compiler t = "pdflatex") := by
  refine ⟨?_, ?_, ?_, ?_, ?_⟩
  · intro h1
    unfold choose_compiler
    rw [h1]
    rfl
  · intro h1 h2
    unfold choose_compiler
    rw [h1, h2]
    rfl
  · intro h1 h2 h3
    unfold choose_compiler
    rw [h1, h2, h3]
    rfl
  · intro h1 h2 h3 h4
    unfold choose_compiler
    rw [h1, h2, h3, h4]
    rfl
  · intro h1 h2 h3 h4
    unfold choose_compiler
    rw [h1, h2, h3, h4]
    rfl

/-- C4 witness: the amended precedence rule evaluated on a concrete text. -/
theorem c4_amended_witness : choose_compiler c4winput = "lualatex" :=
  (c4_amended_engine_rule_order c4winput).2.1 (by decide) (by decide)

/-- C10: package detection is the exact substring `\usepackage{name}`
with no option list; a text in which no such exact probe occurs, whose
characters are all 7-bit ASCII and which uses no font-selection command
is compiled with the standard engine. -/
theorem c10_options_defeat_detection (t : String)
    (h1 : xelatex_packages.any (fun pkg => strContains t (usepackageOf pkg)) = false)
    (h2 : lualatex_packages.any (fun pkg => strContains t (usepackageOf pkg)) = false)
    (h3 : t.toList.any (fun c => 127 < c.toNat) = false)
    (h4 : (strContains t "\\setmainfont" || strContains t "\\setsansfont"
        || strContains t "\\setmonofont") = false) :
    choose_compiler t = "pdflatex" := by
  unfold choose_compiler
  rw [h1, h2, h3, h4]
  rfl

/-- C10 witness: the bracketed-options document is ASCII-only, matches no
exact package probe, and is compiled with `pdflatex`. -/
theorem c10_witness :
    strContains c10input "\\usepackage[no-math]\x7bfontspec\x7d" = true ∧
    strContains c10input (usepackageOf "fontspec") = false ∧
    choose_compiler c10input = "pdflatex" :=
  ⟨by decide, by decide,
    c10_options_defeat_detection c10input (by decide) (by decide) (by decide) (by decide)⟩

/-- Helper: rules 2-4 always produce a candidate on a non-empty list. -/
theorem findByConvention_isSome (a : FileInfo × String) (as : List (FileInfo × String)) :
    (findByConvention (a :: as)).isSome = true := by
  unfold findByConvention
  cases h1 : common_names.findSome?
      (fun cn => (a :: as).find? (fun q => strLower q.1.name == strLower cn)) with
  | some q => simp
  | none =>
    cases h2 : (a :: as).find?
        (fun q => strContains (strTake q.1.content 1000) "\\documentclass") with
    | some q => simp
    | none => simp

/-- C8: entry resolution returns `none` (no main `.tex` file) exactly when
the list of materialized compilable candidates is empty, for every hint;
with at least one candidate it always returns some path. -/
theorem c8_notfound_iff_empty (folder : PaperFolderData) (fp : List (String × String))
    (hint : Option String) :
    find_main_tex_file folder fp hint = none ↔ collectTexFiles fp folder = [] := by
  unfold find_main_tex_file
  cases htex : collectTexFiles fp folder with
  | nil => simp
  | cons a as =>
    simp only [List.isEmpty_cons, if_neg Bool.false_ne_true, reduceCtorEq, iff_false]
    have hconv : findByConvention (a :: as) ≠ none := by
      have h := findByConvention_isSome a as
      exact fun he => by rw [he] at h; exact Bool.false_ne_true h
    cases hint with
    | none => simpa using hconv
    | some m =>
      cases hf : (a :: as).find? (fun q => q.1.name == m) with
      | some q => simp [hf]
      | none => simpa [hf] using hconv

/-- C5: on a non-empty candidate list, entry resolution applies its rules
in strict order — exact hint match wins immediately; an unmatched hint
falls through to hintless resolution instead of failing; then the
conventional-name scan (all candidates per name, names in list order);
then the document-class scan over the first 1000 characters; then the
first candidate in traversal order. -/
theorem c5_entry_resolution_order (folder : PaperFolderData) (fp : List (String × String))
    (m : String) (hne : (collectTexFiles fp folder).isEmpty = false) :
    (∀ q, (collectTexFiles fp folder).find? (fun p => p.1.name == m) = some q →
      find_main_tex_file folder fp (some m) = some q.2) ∧
    ((collectTexFiles fp folder).find? (fun p => p.1.name == m) = none →
      find_main_tex_file folder fp (some m) = find_main_tex_file folder fp none) ∧
    (∀ q, common_names.findSome?
        (fun cn => (collectTexFiles fp folder).find?
          (fun p => strLower p.1.name == strLower cn)) = some q →
      find_main_tex_file folder fp none = some q.2) ∧
    (common_names.findSome?
        (fun cn => (collectTexFiles fp folder).find?
          (fun p => strLower p.1.name == strLower cn)) = none →
      ∀ q, (collectTexFiles fp folder).find?
          (fun p => strContains (strTake p.1.content 1000) "\\documentclass") = some q →
      find_main_tex_file folder fp none = some q.2) ∧
    (common_names.findSome?
        (fun cn => (collectTexFiles fp folder).find?
          (fun p => strLower p.1.name == strLower cn)) = none →
      (collectTexFiles fp folder).find?
          (fun p => strContains (strTake p.1.content 1000) "\\documentclass") = none →
      find_main_tex_file folder fp none =
        (collectTexFiles fp folder).head?.map (fun q => q.2)) := by
  refine ⟨?_, ?_, ?_, ?_, ?_⟩
  · intro q hq
    unfold find_main_tex_file
    simp only [hne, Bool.false_eq_true, if_false, hq]
  · intro hq
    unfold find_main_tex_file
    simp only [hne, Bool.false_eq_true, if_false, hq]
  · intro q hq
    unfold find_main_tex_file findByConvention
    simp only [hne, Bool.false_eq_true, if_false, hq]
  · intro hc q hq
    unfold find_main_tex_file findByConvention
    simp only [hne, Bool.false_eq_true, if_false, hc, hq]
  · intro hc hd
    unfold find_main_tex_file findByConvention
    simp only [hne, Bool.false_eq_true, if_false, hc, hd]

/-- C5 witness: on the concrete tree, the exact hint `alpha.tex` beats the
conventional name `Main.TEX`, and without a hint the conventional name
wins. -/
theorem c5_witness :
    find_main_tex_file wTree wFp (some "alpha.tex") = some "alpha.tex" ∧
    find_main_tex_file wTree wFp none = some "sub/Main.TEX" :=
  ⟨(c5_entry_resolution_order wTree wFp "alpha.tex" (by decide)).1
      (wFileA, "alpha.tex") (by decide),
    (c5_entry_resolution_order wTree wFp "unused-hint" (by decide)).2.2.1
      (wFileMain, "sub/Main.TEX") (by decide)⟩

/-- C1, counterexample: with pass 1 exiting zero and pass 2 exiting
non-zero, the returned transcript is *not* pass-1 transcript followed by
bibliography transcript followed by pass-2 transcript with nothing else —
the failure path prepends `first_pass_logs` to a transcript that already
contains it, so the pass-1 transcript appears twice. -/
theorem c1_cex :
    c1env.pass1 = .completed 0 "A" "B" ∧
    c1env.pass2 = .completed 1 "C" "D" ∧
    (compile_project "pdflatex" c1env ⟨none⟩).1.2 ≠
      passBlock "First" "pdflatex" 0 "A" "B" ++
        (bibSection (run_bibtex_if_needed bibSkipped) ++
          passBlock "Second" "pdflatex" 1 "C" "D") :=
  ⟨rfl, rfl, by decide⟩

/-- C1 (amended): when pass 1 exits zero and pass 2 exits non-zero or
times out, the returned transcript is the pass-1 transcript, then the
pass-1 transcript *again*, then the bibliography-stage transcript, then
the pass-2 transcript (or the timeout banner), in that order. -/
theorem c1_amended_pass2_failure_transcript (compiler o1 e1 : String) (env : CompileEnv)
    (g : GlobalState) (h1 : env.pass1 = .completed 0 o1 e1) :
    (∀ (rc2 : Int) (o2 e2 : String), rc2 ≠ 0 → env.pass2 = .completed rc2 o2 e2 →
      (compile_project compiler env g).1 = (false,
        passBlock "First" compiler 0 o1 e1 ++
          ((passBlock "First" compiler 0 o1 e1 ++
              bibSection (run_bibtex_if_needed env.bib)) ++
            passBlock "Second" compiler rc2 o2 e2))) ∧
    (∀ msg, env.pass2 = .timeout msg →
      (compile_project compiler env g).1 = (false,
        passBlock "First" compiler 0 o1 e1 ++
          ((passBlock "First" compiler 0 o1 e1 ++
              bibSection (run_bibtex_if_needed env.bib)) ++
            timeoutMsg))) := by
  obtain ⟨p1, bib, p2, p3, pdf⟩ := env
  simp only at h1
  subst h1
  constructor
  · intro rc2 o2 e2 hrc h2
    simp only at h2
    subst h2
    simp [compile_project, hrc]
  · intro msg h2
    simp only at h2
    subst h2
    simp [compile_project]

/-- C1 witness: the amended transcript shape evaluated on a concrete
environment whose pass 2 times out. -/
theorem c1_amended_witness :
    (compile_project "pdflatex" c1wenv ⟨none⟩).1 = (false,
      passBlock "First" "pdflatex" 0 "A" "B" ++
        ((passBlock "First" "pdflatex" 0 "A" "B" ++
            bibSection (run_bibtex_if_needed bibSkipped)) ++
          timeoutMsg)) :=
  (c1_amended_pass2_failure_transcript "pdflatex" "A" "B" c1wenv ⟨none⟩ rfl).2 "texbin" rfl

/-- C2, counterexample: pass 2 succeeded and the expected artifact
exists, yet a pass-3 timeout flips the final status to failure — the
timeout escapes the pass-3 warning branch and is caught by the
pipeline-level `TimeoutExpired` handler. -/
theorem c2_cex :
    c2env.pass2 = .completed 0 "o2" "e2" ∧
    c2env.pass3 = .timeout "cmd" ∧
    c2env.pdf_exists = true ∧
    (run_bibtex_if_needed c2env.bib).1 = true ∧
    (compile_project "pdflatex" c2env ⟨none⟩).1.1 = false :=
  ⟨rfl, rfl, rfl, by decide, by decide⟩

/-- C2 (amended): when passes 1 and 2 exit zero and the artifact exists,
a pass-3 *non-zero exit* never changes the final status from success;
a pass-3 *timeout*, however, fails the compilation. -/
theorem c2_amended_pass3_behavior (compiler o1 e1 o2 e2 : String) (env : CompileEnv)
    (g : GlobalState) (h1 : env.pass1 = .completed 0 o1 e1)
    (h2 : env.pass2 = .completed 0 o2 e2) (hp : env.pdf_exists = true) :
    (∀ (rc3 : Int) (o3 e3 : String), env.pass3 = .completed rc3 o3 e3 →
      (compile_project compiler env g).1.1 = true) ∧
    (∀ msg, env.pass3 = .timeout msg → (run_bibtex_if_needed env.bib).1 = true →
      (compile_project compiler env g).1.1 = false) := by
  obtain ⟨p1, bib, p2, p3, pdf⟩ := env
  simp only at h1 h2 hp
  subst h1
  subst h2
  subst hp
  constructor
  · intro rc3 o3 e3 h3
    simp only at h3
    subst h3
    cases hb : (run_bibtex_if_needed bib).1 <;>
      simp [compile_project, finalizePdf, hb]
  · intro msg h3 hb
    simp only at h3
    subst h3
    simp [compile_project, finalizePdf, hb]

/-- C2 witness: the amended behavior on a concrete environment — pass 3
exiting 9 keeps success. -/
theorem c2_amended_witness :
    (compile_project "pdflatex" wEnvOk ⟨none⟩).1.1 = true :=
  (c2_amended_pass3_behavior "pdflatex" "o1" "e1" "o2" "e2" wEnvOk ⟨none⟩ rfl rfl rfl).1
    9 "o3" "e3" rfl

/-- Helper: every run of the pipeline either fails leaving the global
state unchanged, or succeeds storing its transcript in `last_logs`. -/
theorem compile_project_cases (compiler : String) (env : CompileEnv) (g : GlobalState) :
    (∃ t, compile_project compiler env g = ((false, t), g)) ∨
    (∃ t, compile_project compiler env g = ((true, t), ⟨some t⟩)) := by
  obtain ⟨p1, bib, p2, p3, pdf⟩ := env
  unfold compile_project finalizePdf
  dsimp only
  repeat' split
  all_goals first
    | exact .inl ⟨_, rfl⟩
    | exact .inr ⟨_, rfl⟩

/-- Helper: the returned (status, transcript) pair does not depend on the
prior value of the `last_logs` attribute. -/
theorem compile_project_fst_const (compiler : String) (env : CompileEnv)
    (g g' : GlobalState) :
    (compile_project compiler env g).1 = (compile_project compiler env g').1 := by
  obtain ⟨p1, bib, p2, p3, pdf⟩ := env
  unfold compile_project finalizePdf
  dsimp only
  repeat' split
  all_goals rfl

/-- C3, counterexample: a successful compilation writes the request's
transcript onto the shared function-level attribute
(`compile_project.last_logs`), mutating state outside the request's
working directory and returned result. -/
theorem c3_cex :
    (compile_project "pdflatex" wEnvOk ⟨none⟩).1.1 = true ∧
    (compile_project "pdflatex" wEnvOk ⟨none⟩).2 ≠ ⟨none⟩ ∧
    (compile_project "pdflatex" wEnvOk ⟨none⟩).2 =
      ⟨some ((compile_project "pdflatex" wEnvOk ⟨none⟩).1.2)⟩ :=
  ⟨by decide, by decide, by decide⟩

/-- C3 (amended): the result returned to the caller depends only on the
request's environment — not on the shared attribute's prior value — but
every successful run stores its transcript on the shared attribute
(`compile_project.last_logs`); failures leave the attribute unchanged. -/
theorem c3_amended_shared_attribute (compiler : String) (env : CompileEnv)
    (g g' : GlobalState) :
    (compile_project compiler env g).1 = (compile_project compiler env g').1 ∧
    ((compile_project compiler env g).1.1 = true →
      (compile_project compiler env g).2 =
        ⟨some ((compile_project compiler env g).1.2)⟩) ∧
    ((compile_project compiler env g).1.1 = false →
      (compile_project compiler env g).2 = g) := by
  refine ⟨compile_project_fst_const compiler env g g', ?_, ?_⟩
  · intro h
    rcases compile_project_cases compiler env g with ⟨t, ht⟩ | ⟨t, ht⟩
    · rw [ht] at h
      exact absurd h (by simp)
    · rw [ht]
  · intro h
    rcases compile_project_cases compiler env g with ⟨t, ht⟩ | ⟨t, ht⟩
    · rw [ht]
    · rw [ht] at h
      exact absurd h (by simp)

/-- C3 witness: the amended statement applied to a concrete successful
environment, two different prior attribute values, and its success
branch. -/
theorem c3_amended_witness :
    (compile_project "pdflatex" wEnvNoBib ⟨none⟩).1 =
      (compile_project "pdflatex" wEnvNoBib ⟨some "stale"⟩).1 ∧
    (compile_project "pdflatex" wEnvNoBib ⟨none⟩).2 =
      ⟨some ((compile_project "pdflatex" wEnvNoBib ⟨none⟩).1.2)⟩ :=
  ⟨(c3_amended_shared_attribute "pdflatex" wEnvNoBib ⟨none⟩ ⟨some "stale"⟩).1,
    (c3_amended_shared_attribute "pdflatex" wEnvNoBib ⟨none⟩ ⟨some "stale"⟩).2.1 (by decide)⟩

/-- C6: the bibliography stage tries `biber` then `bibtex` in that fixed
order; the first processor exiting zero wins and short-circuits the list;
if neither exits zero the stage reports failure, yet the pipeline still
runs pass 2 and can succeed; and the third compilation pass appears in
the run exactly when the stage's returned boolean is true. -/
theorem c6_bibliography_stage :
    (∀ (b : BibEnv) (a o e : String), b.bib_files_exist = true → b.aux_exists = true →
      b.aux_read = .ok a →
      (!strContains a "\\bibdata" && !strContains a "\\citation") = false →
      b.biber = .completed 0 o e →
      run_bibtex_if_needed b = (true, bibBlock "biber" 0 o e)) ∧
    (∀ (b : BibEnv) (a o e o2 e2 : String) (rc : Int), b.bib_files_exist = true →
      b.aux_exists = true → b.aux_read = .ok a →
      (!strContains a "\\bibdata" && !strContains a "\\citation") = false →
      rc ≠ 0 → b.biber = .completed rc o e → b.bibtex = .completed 0 o2 e2 →
      run_bibtex_if_needed b = (true, bibBlock "biber" rc o e ++ bibBlock "bibtex" 0 o2 e2)) ∧
    (∀ (b : BibEnv) (a o e o2 e2 : String) (rc rc2 : Int), b.bib_files_exist = true →
      b.aux_exists = true → b.aux_read = .ok a →
      (!strContains a "\\bibdata" && !strContains a "\\citation") = false →
      rc ≠ 0 → rc2 ≠ 0 → b.biber = .completed rc o e → b.bibtex = .completed rc2 o2 e2 →
      run_bibtex_if_needed b =
        (false, bibBlock "biber" rc o e ++ bibBlock "bibtex" rc2 o2 e2)) ∧
    (∀ (compiler o1 e1 o2 e2 : String) (env : CompileEnv) (g : GlobalState),
      env.pass1 = .completed 0 o1 e1 → env.pass2 = .completed 0 o2 e2 →
      (run_bibtex_if_needed env.bib).1 = false → env.pdf_exists = true →
      (compile_project compiler env g).1 = (true,
        ((passBlock "First" compiler 0 o1 e1 ++
            bibSection (run_bibtex_if_needed env.bib)) ++
          passBlock "Second" compiler 0 o2 e2) ++ successMsg)) ∧
    (∀ (compiler o1 e1 o2 e2 o3 e3 : String) (rc3 : Int) (env : CompileEnv)
        (g : GlobalState),
      env.pass1 = .completed 0 o1 e1 → env.pass2 = .completed 0 o2 e2 →
      (run_bibtex_if_needed env.bib).1 = true → env.pass3 = .completed rc3 o3 e3 →
      env.pdf_exists = true →
      (compile_project compiler env g).1 = (true,
        (((passBlock "First" compiler 0 o1 e1 ++
            bibSection (run_bibtex_if_needed env.bib)) ++
          passBlock "Second" compiler 0 o2 e2) ++
          passBlock "Third" compiler rc3 o3 e3) ++ successMsg)) := by
  refine ⟨?_, ?_, ?_, ?_, ?_⟩
  · intro b a o e h1 h2 h3 h4 h5
    obtain ⟨bf, ax, ar, bb, bt⟩ := b
    simp only at h1 h2 h3 h5
    subst h1
    subst h2
    subst h3
    subst h5
    simp [run_bibtex_if_needed, bibLoop, h4]
  · intro b a o e o2 e2 rc h1 h2 h3 h4 hrc h5 h6
    obtain ⟨bf, ax, ar, bb, bt⟩ := b
    simp only at h1 h2 h3 h5 h6
    subst h1
    subst h2
    subst h3
    subst h5
    subst h6
    simp [run_bibtex_if_needed, bibLoop, h4, hrc]
  · intro b a o e o2 e2 rc rc2 h1 h2 h3 h4 hrc hrc2 h5 h6
    obtain ⟨bf, ax, ar, bb, bt⟩ := b
    simp only at h1 h2 h3 h5 h6
    subst h1
    subst h2
    subst h3
    subst h5
    subst h6
    simp [run_bibtex_if_needed, bibLoop, h4, hrc, hrc2]
  · intro compiler o1 e1 o2 e2 env g h1 h2 hb hp
    obtain ⟨p1, bib, p2, p3, pdf⟩ := env
    simp only at h1 h2 hb hp
    subst h1
    subst h2
    subst hp
    simp [compile_project, finalizePdf, hb]
  · intro compiler o1 e1 o2 e2 o3 e3 rc3 env g h1 h2 hb h3 hp
    obtain ⟨p1, bib, p2, p3, pdf⟩ := env
    simp only at h1 h2 hb h3 hp
    subst h1
    subst h2
    subst h3
    subst hp
    simp [compile_project, finalizePdf, hb]

/-- C6 witness: the stage short-circuit, the pipeline's recovery from a
skipped bibliography stage, and the third-pass scheduling evaluated on
concrete environments. -/
theorem c6_witness :
    run_bibtex_if_needed wBibOk = (true, bibBlock "biber" 0 "bo" "be") ∧
    (compile_project "pdflatex" wEnvNoBib ⟨none⟩).1 = (true,
      ((passBlock "First" "pdflatex" 0 "o1" "e1" ++
          bibSection (run_bibtex_if_needed bibSkipped)) ++
        passBlock "Second" "pdflatex" 0 "o2" "e2") ++ successMsg) ∧
    (compile_project "pdflatex" wEnvOk ⟨none⟩).1 = (true,
      (((passBlock "First" "pdflatex" 0 "o1" "e1" ++
          bibSection (run_bibtex_if_needed wBibOk)) ++
        passBlock "Second" "pdflatex" 0 "o2" "e2") ++
        passBlock "Third" "pdflatex" 9 "o3" "e3") ++ successMsg) :=
  ⟨c6_bibliography_stage.1 wBibOk "\\citation\x7bx\x7d" "bo" "be" rfl rfl rfl
      (by decide) rfl,
    c6_bibliography_stage.2.2.2.1 "pdflatex" "o1" "e1" "o2" "e2" wEnvNoBib ⟨none⟩
      rfl rfl (by decide) rfl,
    c6_bibliography_stage.2.2.2.2 "pdflatex" "o1" "e1" "o2" "e2" "o3" "e3" 9 wEnvOk
      ⟨none⟩ rfl rfl (by decide) rfl rfl⟩

/-- Helper: a string append with a non-empty right part is non-empty. -/
theorem string_append_ne_empty_right (a : String) {b : String} (h : b ≠ "") :
    a ++ b ≠ "" := by
  intro he
  have h1 : a.toList ++ b.toList = [] := by
    have h2 := congrArg String.toList he
    simpa [string_toList_append] using h2
  have h3 : b.toList = [] := (List.append_eq_nil.mp h1).2
  exact h (string_eq_of_toList h3)

/-- Helper: every transcript `compile_project` returns is non-empty, on
every path (pass 1 is always attempted once the function runs). -/
theorem compile_project_logs_ne_empty (compiler : String) (env : CompileEnv)
    (g : GlobalState) : (compile_project compiler env g).1.2 ≠ "" := by
  obtain ⟨p1, bib, p2, p3, pdf⟩ := env
  unfold compile_project finalizePdf passBlock bibSection unexpectedMsg
  dsimp only
  repeat' split
  all_goals
    first
      | exact string_append_ne_empty_left _ (by decide)
      | exact string_append_ne_empty_left _ (string_append_ne_empty_left _ (by decide))
      | exact string_append_ne_empty_right _ (by decide)
      | exact string_append_ne_empty_right _ (string_append_ne_empty_right _ (by decide))
      | exact string_append_ne_empty_right _
          (string_append_ne_empty_right _ (string_append_ne_empty_left _ (by decide)))

/-- C9, counterexample: the internal-error handler of the project
endpoint responds with an empty transcript even though pass 1 (and the
whole pipeline) ran — here compilation succeeded and the exception is
raised only while reading the produced artifact back. -/
theorem c9_cex :
    wEnvNoBib.pass1 = .completed 0 "o1" "e1" ∧
    (compile_project "pdflatex" wEnvNoBib ⟨none⟩).1.1 = true ∧
    (compile_latex_project wTree (some "alpha.tex") wFp wEnvNoBib ⟨none⟩
        (.error "io error")).1 =
      .response ⟨"error", "Internal server error", ""⟩ :=
  ⟨rfl, by decide, by decide⟩

/-- C9 (amended): `compile_project` itself never returns an empty
transcript, and the compilation-failed response of the project endpoint
carries that transcript verbatim; only the internal-error handler (for
exceptions outside `compile_project`, such as a failing artifact read)
responds with an empty transcript after passes have run. -/
theorem c9_amended_failure_transcripts :
    (∀ (compiler : String) (env : CompileEnv) (g : GlobalState),
      (compile_project compiler env g).1.2 ≠ "") ∧
    (∀ (folder : PaperFolderData) (main_file : Option String)
        (fp : List (String × String)) (env : CompileEnv) (g : GlobalState)
        (pr : Except String String) (path : String),
      fp.isEmpty = false →
      find_main_tex_file folder fp main_file = some path →
      validate_tex_file (contentAt folder fp path) = false →
      (compile_project (choose_compiler (contentAt folder fp path)) env g).1.1 = false →
      (compile_latex_project folder main_file fp env g pr).1 =
        .response ⟨"error", "LaTeX project compilation failed",
          (compile_project (choose_compiler (contentAt folder fp path)) env g).1.2⟩) := by
  refine ⟨compile_project_logs_ne_empty, ?_⟩
  intro folder main_file fp env g pr path hfp hfind hval hfail
  unfold compile_latex_project
  simp [hfp, hfind, hval, hfail]

/-- C9 witness: the amended statement on a concrete project whose pass 2
fails — the response carries the pipeline transcript, and that transcript
is non-empty. -/
theorem c9_amended_witness :
    (compile_latex_project wTree (some "alpha.tex") wFp wEnvP2Fail ⟨none⟩
        (.ok "pdfbytes")).1 =
      .response ⟨"error", "LaTeX project compilation failed",
        (compile_project (choose_compiler (contentAt wTree wFp "alpha.tex"))
          wEnvP2Fail ⟨none⟩).1.2⟩ ∧
    (compile_project "pdflatex" wEnvP2Fail ⟨none⟩).1.2 ≠ "" :=
  ⟨c9_amended_failure_transcripts.2 wTree (some "alpha.tex") wFp wEnvP2Fail ⟨none⟩
      (.ok "pdfbytes") "alpha.tex" (by decide) (by decide) (by decide) (by decide),
    c9_amended_failure_transcripts.1 "pdflatex" wEnvP2Fail ⟨none⟩⟩

/-- Helper: string append is associative. -/
theorem string_append_assoc (a b c : String) : (a ++ b) ++ c = a ++ (b ++ c) :=
  string_eq_of_toList (by simp [string_toList_append])

/-- Helper: the bibliography-processor loop appends to its accumulated
transcript: the transcript it returns is the accumulator followed by what
the loop produces from an empty accumulator. -/
theorem bibLoop_snd (logs : String) (rest : List (String × ProcResult)) :
    (bibLoop logs rest).2 = logs ++ (bibLoop "" rest).2 := by
  induction rest generalizing logs with
  | nil =>
    show logs = logs ++ ""
    exact (string_eq_of_toList (by simp [string_toList_append])).symm
  | cons hd tl ih =>
    obtain ⟨nm, r⟩ := hd
    cases r with
    | completed rc o e =>
      simp only [bibLoop]
      by_cases hrc : (rc == 0) = true
      · rw [if_pos hrc, if_pos hrc]
        rfl
      · rw [if_neg hrc, if_neg hrc]
        rw [ih (logs ++ bibBlock nm rc o e), ih ("" ++ bibBlock nm rc o e)]
        rw [string_append_assoc]
        rfl
    | timeout m =>
      simp only [bibLoop]
      rw [ih (logs ++ ("Failed to run " ++ (nm ++ (": " ++ (m ++ "\n"))))),
        ih ("" ++ ("Failed to run " ++ (nm ++ (": " ++ (m ++ "\n")))))]
      rw [string_append_assoc]
      rfl
    | notFound m =>
      simp only [bibLoop]
      rw [ih (logs ++ ("Failed to run " ++ (nm ++ (": " ++ (m ++ "\n"))))),
        ih ("" ++ ("Failed to run " ++ (nm ++ (": " ++ (m ++ "\n")))))]
      rw [string_append_assoc]
      rfl

/-- C7: at every subprocess invocation site of the pipeline — pass 1,
pass 2, pass 3, biber, bibtex — a timeout produces a returned result
observably distinct from the result a non-zero exit produces (the
timeout path emits the `=== TIMEOUT ERROR ===` banner or a
`Failed to run` line instead of a pass/processor block, and a pass-3
timeout even flips the success flag). -/
theorem c7_timeout_distinct :
    (∀ (compiler m : String) (rc : Int) (o e : String) (b b' : BibEnv)
        (p2 p2' p3 p3' : ProcResult) (pdf pdf' : Bool) (g g' : GlobalState), rc ≠ 0 →
      (compile_project compiler ⟨.timeout m, b, p2, p3, pdf⟩ g).1 ≠
        (compile_project compiler ⟨.completed rc o e, b', p2', p3', pdf'⟩ g').1) ∧
    (∀ (compiler o1 e1 m : String) (rc : Int) (o e : String) (b : BibEnv)
        (p3 p3' : ProcResult) (pdf pdf' : Bool) (g g' : GlobalState), rc ≠ 0 →
      (compile_project compiler ⟨.completed 0 o1 e1, b, .timeout m, p3, pdf⟩ g).1 ≠
        (compile_project compiler ⟨.completed 0 o1 e1, b, .completed rc o e, p3', pdf'⟩ g').1) ∧
    (∀ (compiler o1 e1 o2 e2 m : String) (rc3 : Int) (o3 e3 : String) (b : BibEnv)
        (g g' : GlobalState), rc3 ≠ 0 → (run_bibtex_if_needed b).1 = true →
      (compile_project compiler
          ⟨.completed 0 o1 e1, b, .completed 0 o2 e2, .timeout m, true⟩ g).1 ≠
        (compile_project compiler
          ⟨.completed 0 o1 e1, b, .completed 0 o2 e2, .completed rc3 o3 e3, true⟩ g').1) ∧
    (∀ (m : String) (rc : Int) (o e : String) (bt : ProcResult), rc ≠ 0 →
      run_bibtex_if_needed ⟨true, true, .ok "\\citation", .timeout m, bt⟩ ≠
        run_bibtex_if_needed ⟨true, true, .ok "\\citation", .completed rc o e, bt⟩) ∧
    (∀ (m : String) (rc : Int) (o e : String), rc ≠ 0 →
      run_bibtex_if_needed
          ⟨true, true, .ok "\\citation", .completed 1 "bo" "be", .timeout m⟩ ≠
        run_bibtex_if_needed
          ⟨true, true, .ok "\\citation", .completed 1 "bo" "be", .completed rc o e⟩) := by
  refine ⟨?_, ?_, ?_, ?_, ?_⟩
  · intro compiler m rc o e b b' p2 p2' p3 p3' pdf pdf' g g' hrc h
    have e2 : (compile_project compiler ⟨.completed rc o e, b', p2', p3', pdf'⟩ g').1 =
        (false, passBlock "First" compiler rc o e) := by
      show (if (rc != 0) = true then ((false, passBlock "First" compiler rc o e), g')
            else _).1 = _
      rw [if_pos (by simp [hrc])]
    rw [e2] at h
    have hs := congrArg Prod.snd h
    have h5 := congrArg (fun s => s.toList.take 5) hs
    have h6 : (['=','=','=',' ','T'] : List Char) = ['=','=','=',' ','F'] := h5
    exact absurd h6 (by decide)
  · intro compiler o1 e1 m rc o e b p3 p3' pdf pdf' g g' hrc h
    have e2 : (compile_project compiler
        ⟨.completed 0 o1 e1, b, .completed rc o e, p3', pdf'⟩ g').1 =
        (false, passBlock "First" compiler 0 o1 e1 ++
          ((passBlock "First" compiler 0 o1 e1 ++
              bibSection (run_bibtex_if_needed b)) ++
            passBlock "Second" compiler rc o e)) := by
      simp [compile_project, hrc]
    rw [e2] at h
    have hs := congrArg Prod.snd h
    have hl := congrArg String.toList hs
    simp only [string_toList_append] at hl
    have hq := List.append_cancel_left (List.append_cancel_left hl)
    have h5 := congrArg (fun l => l.take 5) hq
    have h6 : (['=','=','=',' ','T'] : List Char) = ['=','=','=',' ','S'] := h5
    exact absurd h6 (by decide)
  · intro compiler o1 e1 o2 e2 m rc3 o3 e3 b g g' hrc hb h
    have s1 : (compile_project compiler
        ⟨.completed 0 o1 e1, b, .completed 0 o2 e2, .timeout m, true⟩ g).1.1 = false := by
      simp [compile_project, hb]
    have s2 : (compile_project compiler
        ⟨.completed 0 o1 e1, b, .completed 0 o2 e2, .completed rc3 o3 e3, true⟩ g').1.1 =
        true := by
      simp [compile_project, finalizePdf, hb]
    rw [h, s2] at s1
    exact Bool.noConfusion s1
  · intro m rc o e bt hrc h
    have e1 : run_bibtex_if_needed ⟨true, true, .ok "\\citation", .timeout m, bt⟩ =
        bibLoop ("" ++ ("Failed to run " ++ ("biber" ++ (": " ++ (m ++ "\n")))))
          [("bibtex", bt)] := rfl
    have e2 : run_bibtex_if_needed ⟨true, true, .ok "\\citation", .completed rc o e, bt⟩ =
        bibLoop ("" ++ bibBlock "biber" rc o e) [("bibtex", bt)] := by
      have estep : run_bibtex_if_needed
          ⟨true, true, .ok "\\citation", .completed rc o e, bt⟩ =
          if (rc == 0) = true then (true, "" ++ bibBlock "biber" rc o e)
          else bibLoop ("" ++ bibBlock "biber" rc o e) [("bibtex", bt)] := rfl
      rw [estep, if_neg (by simp [hrc])]
    rw [e1, e2] at h
    have hs := congrArg Prod.snd h
    rw [bibLoop_snd ("" ++ ("Failed to run " ++ ("biber" ++ (": " ++ (m ++ "\n"))))),
      bibLoop_snd ("" ++ bibBlock "biber" rc o e)] at hs
    have hl := congrArg String.toList hs
    simp only [string_toList_append] at hl
    have hq := List.append_cancel_right hl
    have hq2 := List.append_cancel_left hq
    have h5 := congrArg (fun l => l.take 1) hq2
    have h6 : (['F'] : List Char) = ['='] := h5
    exact absurd h6 (by decide)
  · intro m rc o e hrc h
    have e1 : run_bibtex_if_needed
        ⟨true, true, .ok "\\citation", .completed 1 "bo" "be", .timeout m⟩ =
        (false, ("" ++ bibBlock "biber" 1 "bo" "be") ++
          ("Failed to run " ++ ("bibtex" ++ (": " ++ (m ++ "\n"))))) := rfl
    have e2 : run_bibtex_if_needed
        ⟨true, true, .ok "\\citation", .completed 1 "bo" "be", .completed rc o e⟩ =
        (false, ("" ++ bibBlock "biber" 1 "bo" "be") ++ bibBlock "bibtex" rc o e) := by
      have estep : run_bibtex_if_needed
          ⟨true, true, .ok "\\citation", .completed 1 "bo" "be", .completed rc o e⟩ =
          if (rc == 0) = true
          then (true, ("" ++ bibBlock "biber" 1 "bo" "be") ++ bibBlock "bibtex" rc o e)
          else bibLoop (("" ++ bibBlock "biber" 1 "bo" "be") ++ bibBlock "bibtex" rc o e)
            [] := rfl
      rw [estep, if_neg (by simp [hrc])]
      rfl
    rw [e1, e2] at h
    have hs := congrArg Prod.snd h
    have hl := congrArg String.toList hs
    simp only [string_toList_append] at hl
    have hq := List.append_cancel_left hl
    have h5 := congrArg (fun l => l.take 1) hq
    have h6 : (['F'] : List Char) = ['='] := h5
    exact absurd h6 (by decide)

/-- C7 witness: the five distinctness statements applied at concrete
environments. -/
theorem c7_witness :
    ((compile_project "pdflatex"
        ⟨.timeout "t", bibSkipped, .completed 0 "" "", .completed 0 "" "", true⟩ ⟨none⟩).1 ≠
      (compile_project "pdflatex"
        ⟨.completed 1 "o" "e", bibSkipped, .completed 0 "" "", .completed 0 "" "", true⟩
        ⟨none⟩).1) ∧
    ((compile_project "pdflatex"
        ⟨.completed 0 "a" "b", bibSkipped, .timeout "t", .completed 0 "" "", true⟩ ⟨none⟩).1 ≠
      (compile_project "pdflatex"
        ⟨.completed 0 "a" "b", bibSkipped, .completed 1 "o" "e", .completed 0 "" "", true⟩
        ⟨none⟩).1) ∧
    ((compile_project "pdflatex"
        ⟨.completed 0 "a" "b", wBibOk, .completed 0 "c" "d", .timeout "t", true⟩ ⟨none⟩).1 ≠
      (compile_project "pdflatex"
        ⟨.completed 0 "a" "b", wBibOk, .completed 0 "c" "d", .completed 1 "o" "e", true⟩
        ⟨none⟩).1) ∧
    (run_bibtex_if_needed
        ⟨true, true, .ok "\\citation", .timeout "t", .completed 1 "x" "y"⟩ ≠
      run_bibtex_if_needed
        ⟨true, true, .ok "\\citation", .completed 2 "o" "e", .completed 1 "x" "y"⟩) ∧
    (run_bibtex_if_needed
        ⟨true, true, .ok "\\citation", .completed 1 "bo" "be", .timeout "t"⟩ ≠
      run_bibtex_if_needed
        ⟨true, true, .ok "\\citation", .completed 1 "bo" "be", .completed 2 "o" "e"⟩) :=
  ⟨c7_timeout_distinct.1 "pdflatex" "t" 1 "o" "e" bibSkipped bibSkipped
      (.completed 0 "" "") (.completed 0 "" "") (.completed 0 "" "") (.completed 0 "" "")
      true true ⟨none⟩ ⟨none⟩ (by decide),
    c7_timeout_distinct.2.1 "pdflatex" "a" "b" "t" 1 "o" "e" bibSkipped
      (.completed 0 "" "") (.completed 0 "" "") true true ⟨none⟩ ⟨none⟩ (by decide),
    c7_timeout_distinct.2.2.1 "pdflatex" "a" "b" "c" "d" "t" 1 "o" "e" wBibOk
      ⟨none⟩ ⟨none⟩ (by decide) (by decide),
    c7_timeout_distinct.2.2.2.1 "t" 2 "o" "e" (.completed 1 "x" "y") (by decide),
    c7_timeout_distinct.2.2.2.2 "t" 2 "o" "e" (by decide)⟩

end LatexCompiler
